import Mathlib

/-!
# Verification of the retrying file downloader (`source.cpp`)

The program parses `--url`, `--destination_file` and `--attempts`, opens the
destination with `fopen(.., "wb")`, and calls `curl_easy_perform` in a bounded
retry loop, with `write_data` as libcurl's write callback.

The embedding is shallow.  libc (`fopen`, `fwrite`) and libcurl
(`curl_easy_init`, `curl_easy_perform`, `curl_easy_getinfo`) are the
environment: an `Env` value scripts what they do, and every step of `main` is
replayed over it.  A run yields its exit status, the ordered trace of
observable events (resource events, transport invocations, lines on
`std::cerr`) and the final content of the destination stream.

Machine integers: `attempts` and `i` are C `int`s.  The loop keeps
`0 ≤ i ≤ attempts`, and `attempts - 1` is evaluated only when `i < attempts`,
hence `attempts ≥ 1`; no operation of the loop can overflow, so both are
modelled as unbounded integers.
-/

namespace Downloader

/-! ## libcurl result codes used by the program -/

/-- The code `CURLE_OK` of `curl/curl.h`. -/
def CURLE_OK : Nat := 0

/-- The code `CURLE_HTTP_RETURNED_ERROR` of `curl/curl.h`: with `CURLOPT_FAILONERROR`
set, the server answered with a status of 400 or more. -/
def CURLE_HTTP_RETURNED_ERROR : Nat := 22

/-- The code `CURLE_WRITE_ERROR` of `curl/curl.h`: the write callback returned a count
different from the amount handed to it. -/
def CURLE_WRITE_ERROR : Nat := 23

/-! ## The environment -/

/-- One invocation of the write callback by libcurl: the bytes handed over, and
how many bytes the stream accepts in the `fwrite` that the callback issues
(`room < data.length` is a short write). -/
structure Chunk where
  data : List Nat
  room : Nat
  deriving DecidableEq, Repr

/-- What one call of `curl_easy_perform` does, as far as the program can see:
the body chunks it delivers in order, the `CURLcode` it reports when no write
falls short, and the HTTP status that `CURLINFO_RESPONSE_CODE` reads back
afterwards. -/
structure Transfer where
  chunks : List Chunk
  res : Nat
  responseCode : Int
  deriving DecidableEq, Repr

/-- The environment of one run.
* `curlInit`: whether `curl_easy_init()` returns a handle;
* `fopen name`: whether `fopen(name, "wb")` returns a stream (`none` is a null
  `outfilename`);
* `perform url k`: the behaviour of the `k`-th call (from 0) of
  `curl_easy_perform` on a handle configured with `url`. -/
structure Env where
  curlInit : Bool
  fopen : Option String → Bool
  perform : Option String → Nat → Transfer

/-! ## Observable events -/

/-- The lines the program writes to `std::cerr`. -/
inductive Diag where
  | invalidOption
  | couldNotOpen (outfilename : Option String)
  | performFailed (res : Nat)
  | httpResponseCode (response_code : Int)
  | retrying
  deriving DecidableEq, Repr

/-- The text of a diagnostic line; `strerror` stands for `curl_easy_strerror`. -/
def Diag.render (strerror : Nat → String) : Diag → String
  | .invalidOption => "Invalid option"
  | .couldNotOpen outfilename => "Could not open file: " ++ outfilename.getD ""
  | .performFailed res => "curl_easy_perform() failed: " ++ strerror res
  | .httpResponseCode response_code => "HTTP response code: " ++ toString response_code
  | .retrying => "Retrying..."

/-- The line is a failure-reason diagnostic (`curl_easy_perform() failed: ...`). -/
def Diag.isFailure : Diag → Bool
  | .performFailed _ => true
  | _ => false

/-- The line is a retry notice (`Retrying...`). -/
def Diag.isRetry : Diag → Bool
  | .retrying => true
  | _ => false

/-- The line is an HTTP status line (`HTTP response code: ...`). -/
def Diag.isHttpCode : Diag → Bool
  | .httpResponseCode _ => true
  | _ => false

/-- Events of a run, in program order. -/
inductive Event where
  /-- The call `fopen(outfilename, "wb")` was made; `ok` tells whether a stream came back. -/
  | fopen (ok : Bool)
  /-- The call `curl_easy_perform(curl)` was made and returned `res`. -/
  | perform (res : Nat)
  /-- The call `curl_easy_cleanup(curl)`. -/
  | cleanup
  /-- The call `fclose(fp)`. -/
  | fclose
  /-- A line on `std::cerr`. -/
  | cerr (d : Diag)
  deriving DecidableEq, Repr

/-- The results of the transport invocations of a trace, in order. -/
def invocations (tr : List Event) : List Nat :=
  tr.filterMap fun e => match e with
    | .perform res => some res
    | _ => none

/-- The diagnostic lines of a trace, in order. -/
def stderr (tr : List Event) : List Diag :=
  tr.filterMap fun e => match e with
    | .cerr d => some d
    | _ => none

/-- Number of transport invocations of a trace that did not return `CURLE_OK`. -/
def failures (tr : List Event) : Nat :=
  (invocations tr).countP fun res => decide (res ≠ CURLE_OK)

/-- Number of `fopen` calls in a trace. -/
def opens (tr : List Event) : Nat :=
  tr.countP fun e => match e with
    | .fopen _ => true
    | _ => false

/-- Number of `fclose` calls in a trace. -/
def closes (tr : List Event) : Nat :=
  tr.countP fun e => match e with
    | .fclose => true
    | _ => false

/-! ## `write_data` (source lines 29-32) and the libc call under it -/

/-- The libc `fwrite(ptr, size, nmemb, stream)` on a stream whose content is
`stream` and that accepts `room` more bytes: the first `min (size * nmemb) room`
bytes of the buffer are appended at the stream position (the end: the stream is
only ever written sequentially), and the number of complete items written is
returned. -/
def fwrite (ptr : List Nat) (size nmemb room : Nat) (stream : List Nat) : Nat × List Nat :=
  let n := min (size * nmemb) room
  (n / size, stream ++ ptr.take n)

/-- Source `write_data`: hands the buffer to `fwrite` and returns its count. -/
def write_data (ptr : List Nat) (size nmemb room : Nat) (stream : List Nat) : Nat × List Nat :=
  let (written, stream1) := fwrite ptr size nmemb room stream
  (written, stream1)

/-! ## The transport, as configured by `main` (source lines 81-87) -/

/-- Mutable state `main` holds while the loop runs: the content of the stream
behind `fp`, and the response code kept in the `curl` handle. -/
structure Handles where
  fp : List Nat
  responseCode : Int
  deriving DecidableEq, Repr

/-- The body of a transfer: libcurl calls the `CURLOPT_WRITEFUNCTION` callback
(`write_data`) with `size = 1`, `nmemb =` the chunk length and the
`CURLOPT_WRITEDATA` pointer (`fp`) for each chunk in order, and aborts at the
first call that returns a count different from `nmemb`.  Returns whether every
chunk was taken in full, and the stream. -/
def deliver : List Chunk → List Nat → Bool × List Nat
  | [], fp => (true, fp)
  | c :: cs, fp =>
    let (written, fp1) := write_data c.data 1 c.data.length c.room fp
    if written = c.data.length then deliver cs fp1 else (false, fp1)

/-- The call `curl_easy_perform(curl)` replaying the transfer `t`: the result is
`CURLE_WRITE_ERROR` when the callback fell short, else the scripted code. -/
def curl_easy_perform (t : Transfer) (h : Handles) : Nat × Handles :=
  let (ok, fp1) := deliver t.chunks h.fp
  (if ok then t.res else CURLE_WRITE_ERROR, { fp := fp1, responseCode := t.responseCode })

/-- The call `curl_easy_getinfo(curl, CURLINFO_RESPONSE_CODE, &response_code)`. -/
def curl_easy_getinfo (h : Handles) : Int :=
  h.responseCode

/-- The `CURLcode` that a call replaying `t` returns, in closed form
(`curl_easy_perform_fst`): it is what the statements say of a transport that
"fails" or "succeeds" on a call. -/
def Transfer.outcome (t : Transfer) : Nat :=
  if t.chunks.all (fun c => decide (c.data.length ≤ c.room)) then t.res else CURLE_WRITE_ERROR

/-! ## `main` -/

/-- One result of `getopt_long` in the option loop: the url option `u`, the
destination option `d`, the attempts option `a` (carrying the value that
`std::stoi` returns for its argument), or anything else. -/
inductive Opt where
  | u (optarg : String)
  | d (optarg : String)
  | a (value : Int)
  | other
  deriving DecidableEq, Repr

/-- The locals of `main` set by the option loop. -/
structure Config where
  url : Option String
  outfilename : Option String
  attempts : Int
  deriving DecidableEq, Repr

/-- The locals as declared (source lines 38-40). -/
def Config.initial : Config :=
  { url := none, outfilename := none, attempts := 1 }

/-- The option loop (source lines 54-69); `none` is the `default:` branch. -/
def processOptions : List Opt → Config → Option Config
  | [], cfg => some cfg
  | .u optarg :: rest, cfg => processOptions rest { cfg with url := some optarg }
  | .d optarg :: rest, cfg => processOptions rest { cfg with outfilename := some optarg }
  | .a value :: rest, cfg => processOptions rest { cfg with attempts := value }
  | .other :: _, _ => none

/-- The retry loop (source lines 90-106), entered at the loop test with counter
`i`.  Every earlier iteration made exactly one call of `curl_easy_perform`, so
iteration `i` makes call number `i` of the run and replays `T i`.  `fuel` bounds
the number of iterations for the recursion; `main` passes `attempts.toNat`,
which the loop never uses up (`retryLoop_fuel`). -/
def retryLoop (T : Nat → Transfer) (attempts : Int) : Nat → Nat → Handles → List Event × Handles
  | 0, _, h => ([], h)
  | fuel + 1, i, h =>
    if (i : Int) < attempts then
      let (res, h1) := curl_easy_perform (T i) h
      if res = CURLE_OK then
        ([Event.perform res], h1)
      else
        let out :=
          [Event.perform res, Event.cerr (Diag.performFailed res)]
            ++ (if res = CURLE_HTTP_RETURNED_ERROR then
                  [Event.cerr (Diag.httpResponseCode (curl_easy_getinfo h1))]
                else [])
            ++ (if (i : Int) < attempts - 1 then [Event.cerr Diag.retrying] else [])
        let (rest, h2) := retryLoop T attempts fuel (i + 1) h1
        (out ++ rest, h2)
    else
      ([], h)

/-- What a run leaves behind: the exit status, the trace, and the content of
the destination stream when one was opened. -/
structure Result where
  exit : Int
  trace : List Event
  file : Option (List Nat)
  deriving DecidableEq, Repr

/-- Source lines 71-112: `main` after the option loop. -/
def run (env : Env) (cfg : Config) : Result :=
  if env.curlInit then
    if env.fopen cfg.outfilename then
      let (evs, h) :=
        retryLoop (env.perform cfg.url) cfg.attempts cfg.attempts.toNat 0
          { fp := [], responseCode := 0 }
      { exit := 0
        trace := [Event.fopen true] ++ evs ++ [Event.cleanup, Event.fclose]
        file := some h.fp }
    else
      { exit := 1
        trace := [Event.fopen false, Event.cerr (Diag.couldNotOpen cfg.outfilename)]
        file := none }
  else
    { exit := 0, trace := [], file := none }

/-- Source `main`, over the sequence of options `getopt_long` yields. -/
def main (env : Env) (opts : List Opt) : Result :=
  match processOptions opts Config.initial with
  | none => { exit := 1, trace := [Event.cerr Diag.invalidOption], file := none }
  | some cfg => run env cfg

/-! ## Vocabulary of the statements -/

/-- The destination was opened: `curl_easy_init` gave a handle (the `fopen` is
inside `if (curl)`) and `fopen` gave a stream. -/
def Env.opened (env : Env) (cfg : Config) : Prop :=
  env.curlInit = true ∧ env.fopen cfg.outfilename = true

/-- The bytes the `k`-th transfer hands to `write_data`, chunk after chunk. -/
def Transfer.bytes (t : Transfer) : List Nat :=
  (t.chunks.map Chunk.data).flatten

/-- Every write of the transfer is taken in full by the stream. -/
def Transfer.writesInFull (t : Transfer) : Prop :=
  ∀ c ∈ t.chunks, c.data.length ≤ c.room

/-- What a failed attempt `k` (from 0) replaying `t` is to leave on `std::cerr`:
the failure reason, the HTTP status line exactly for an HTTP-level error
response, with the status of that transfer, and the retry notice when an
attempt remains. -/
def failureLines (attempts : Int) (k : Nat) (t : Transfer) : List Diag :=
  [Diag.performFailed t.outcome]
    ++ (if t.outcome = CURLE_HTTP_RETURNED_ERROR then [Diag.httpResponseCode t.responseCode] else [])
    ++ (if (k : Int) + 1 < attempts then [Diag.retrying] else [])

/-! ## Concrete scenarios -/

/-- The command line `--url http://x/ok --destination_file /tmp/out.bin --attempts n`. -/
def cmdline (n : Int) : List Opt :=
  [Opt.u "http://x/ok", Opt.d "/tmp/out.bin", Opt.a n]

/-- The locals after the option loop has read `cmdline n`. -/
def cmdlineConfig (n : Int) : Config :=
  { url := some "http://x/ok", outfilename := some "/tmp/out.bin", attempts := n }

/-- Every transfer fails to connect (`CURLE_COULDNT_CONNECT`, 7). -/
def envRefused : Env :=
  { curlInit := true
    fopen := fun _ => true
    perform := fun _ _ => { chunks := [], res := 7, responseCode := 0 } }

/-- The first two transfers fail to connect, the third delivers three bytes. -/
def envThirdTime : Env :=
  { curlInit := true
    fopen := fun _ => true
    perform := fun _ k =>
      if k < 2 then { chunks := [], res := 7, responseCode := 0 }
      else { chunks := [{ data := [10, 20, 30], room := 3 }], res := CURLE_OK, responseCode := 200 } }

/-- Every transfer delivers two chunks and succeeds. -/
def envServed : Env :=
  { curlInit := true
    fopen := fun _ => true
    perform := fun _ _ =>
      { chunks := [{ data := [1, 2], room := 2 }, { data := [3], room := 8 }]
        res := CURLE_OK
        responseCode := 200 } }

/-- The server answers 404 to every transfer; with `CURLOPT_FAILONERROR` no body
is delivered and the result is `CURLE_HTTP_RETURNED_ERROR`. -/
def envNotFound : Env :=
  { curlInit := true
    fopen := fun _ => true
    perform := fun _ _ =>
      { chunks := [], res := CURLE_HTTP_RETURNED_ERROR, responseCode := 404 } }

/-- The destination cannot be opened. -/
def envUnwritable : Env :=
  { curlInit := true
    fopen := fun _ => false
    perform := fun _ _ => { chunks := [], res := CURLE_OK, responseCode := 200 } }

/-- The call `curl_easy_init()` returns null. -/
def envNoSession : Env :=
  { curlInit := false
    fopen := fun _ => true
    perform := fun _ _ => { chunks := [], res := CURLE_OK, responseCode := 200 } }

/-- The first transfer delivers two bytes and then breaks off
(`CURLE_RECV_ERROR`, 56); later transfers deliver the whole body `[7, 8, 9]`. -/
def envBrokenThenServed : Env :=
  { curlInit := true
    fopen := fun _ => true
    perform := fun _ k =>
      if k = 0 then { chunks := [{ data := [7, 8], room := 2 }], res := 56, responseCode := 200 }
      else { chunks := [{ data := [7, 8, 9], room := 3 }], res := CURLE_OK, responseCode := 200 } }

/-! ## The transport call -/

theorem write_data_eq (ptr : List Nat) (size nmemb room : Nat) (stream : List Nat) :
    write_data ptr size nmemb room stream = fwrite ptr size nmemb room stream := rfl

theorem deliver_fst (cs : List Chunk) (fp : List Nat) :
    (deliver cs fp).1 = cs.all (fun c => decide (c.data.length ≤ c.room)) := by
  induction cs generalizing fp with
  | nil => rfl
  | cons c cs ih =>
    simp only [deliver, write_data, fwrite, List.all_cons, one_mul, Nat.div_one]
    by_cases hc : c.data.length ≤ c.room
    · simp [hc, ih]
    · have : min c.data.length c.room ≠ c.data.length := by omega
      simp [hc, this]

theorem deliver_snd (cs : List Chunk) (fp : List Nat)
    (hfull : ∀ c ∈ cs, c.data.length ≤ c.room) :
    (deliver cs fp).2 = fp ++ (cs.map Chunk.data).flatten := by
  induction cs generalizing fp with
  | nil => simp [deliver]
  | cons c cs ih =>
    have hc : c.data.length ≤ c.room := hfull c (List.mem_cons_self _ _)
    have hcs : ∀ c ∈ cs, c.data.length ≤ c.room := fun d hd => hfull d (List.mem_cons_of_mem _ hd)
    simp only [deliver, write_data, fwrite, one_mul, Nat.div_one]
    simp [hc, ih _ hcs]

theorem curl_easy_perform_fst (t : Transfer) (h : Handles) :
    (curl_easy_perform t h).1 = t.outcome := by
  simp only [curl_easy_perform, Transfer.outcome]
  rw [← deliver_fst t.chunks h.fp]

theorem curl_easy_perform_code (t : Transfer) (h : Handles) :
    curl_easy_getinfo (curl_easy_perform t h).2 = t.responseCode := rfl

theorem curl_easy_perform_fp (t : Transfer) (h : Handles) (hfull : t.writesInFull) :
    (curl_easy_perform t h).2.fp = h.fp ++ t.bytes := by
  simp only [curl_easy_perform, Transfer.bytes]
  exact deliver_snd t.chunks h.fp hfull

/-! ## Unfolding the retry loop -/

theorem retryLoop_done (T : Nat → Transfer) (attempts : Int) (fuel i : Nat) (h : Handles)
    (hi : ¬ (i : Int) < attempts) : retryLoop T attempts fuel i h = ([], h) := by
  cases fuel <;> simp [retryLoop, hi]

theorem retryLoop_ok (T : Nat → Transfer) (attempts : Int) (fuel i : Nat) (h : Handles)
    (hi : (i : Int) < attempts) (hok : (T i).outcome = CURLE_OK) :
    retryLoop T attempts (fuel + 1) i h
      = ([Event.perform CURLE_OK], (curl_easy_perform (T i) h).2) := by
  have h1 := curl_easy_perform_fst (T i) h
  rw [hok] at h1
  simp only [retryLoop, hi, if_true]
  rw [show curl_easy_perform (T i) h = ((curl_easy_perform (T i) h).1, (curl_easy_perform (T i) h).2) from rfl]
  simp [h1]

theorem retryLoop_fail (T : Nat → Transfer) (attempts : Int) (fuel i : Nat) (h : Handles)
    (hi : (i : Int) < attempts) (hko : (T i).outcome ≠ CURLE_OK) :
    retryLoop T attempts (fuel + 1) i h
      = ([Event.perform (T i).outcome] ++ (failureLines attempts i (T i)).map Event.cerr
            ++ (retryLoop T attempts fuel (i + 1) (curl_easy_perform (T i) h).2).1,
          (retryLoop T attempts fuel (i + 1) (curl_easy_perform (T i) h).2).2) := by
  have h1 := curl_easy_perform_fst (T i) h
  have h2 := curl_easy_perform_code (T i) h
  have h3 : ((i : Int) < attempts - 1) ↔ ((i : Int) + 1 < attempts) := by omega
  simp only [retryLoop, hi, if_true]
  rw [show curl_easy_perform (T i) h = ((curl_easy_perform (T i) h).1, (curl_easy_perform (T i) h).2) from rfl]
  simp only [h1, h2, hko, if_false, failureLines, h3]
  by_cases ha : (T i).outcome = CURLE_HTTP_RETURNED_ERROR <;> by_cases hb : (i : Int) + 1 < attempts <;>
    simp [ha, hb]

theorem retryLoop_fuel (T : Nat → Transfer) (attempts : Int) (fuel i : Nat) (h : Handles)
    (hf : (attempts - i).toNat ≤ fuel) :
    retryLoop T attempts fuel i h = retryLoop T attempts (attempts - i).toNat i h := by
  induction fuel generalizing i h with
  | zero =>
    have : (attempts - i).toNat = 0 := by omega
    rw [this]
  | succ f ih =>
    by_cases hi : (i : Int) < attempts
    · obtain ⟨g, hg⟩ : ∃ g, (attempts - i).toNat = g + 1 := ⟨(attempts - i).toNat - 1, by omega⟩
      have hg1 : (attempts - ((i + 1 : Nat) : Int)).toNat = g := by push_cast; omega
      rw [hg]
      by_cases hok : (T i).outcome = CURLE_OK
      · rw [retryLoop_ok T attempts f i h hi hok, retryLoop_ok T attempts g i h hi hok]
      · rw [retryLoop_fail T attempts f i h hi hok, retryLoop_fail T attempts g i h hi hok,
          ih (i + 1) _ (by omega), hg1]
    · rw [retryLoop_done T attempts _ i h hi, retryLoop_done T attempts _ i h hi]

/-! ## The text of the lines -/

theorem render_isFailure (strerror : Nat → String) (d : Diag) (hd : d.isFailure = true) :
    ∃ res, d.render strerror = "curl_easy_perform() failed: " ++ strerror res := by
  cases d <;> simp [Diag.isFailure] at hd
  exact ⟨_, rfl⟩

theorem render_isRetry (strerror : Nat → String) (d : Diag) (hd : d.isRetry = true) :
    d.render strerror = "Retrying..." := by
  cases d <;> simp [Diag.isRetry] at hd
  rfl

theorem render_isHttpCode (strerror : Nat → String) (d : Diag) (hd : d.isHttpCode = true) :
    ∃ code : Int, d.render strerror = "HTTP response code: " ++ toString code := by
  cases d <;> simp [Diag.isHttpCode] at hd
  exact ⟨_, rfl⟩

/-! ## Projections of a trace -/

@[simp] theorem invocations_nil : invocations [] = [] := rfl

@[simp] theorem invocations_append (a b : List Event) :
    invocations (a ++ b) = invocations a ++ invocations b := by
  simp [invocations, List.filterMap_append]

@[simp] theorem invocations_perform (res : Nat) (tr : List Event) :
    invocations (Event.perform res :: tr) = res :: invocations tr := by
  simp [invocations, List.filterMap_cons]

@[simp] theorem invocations_cerr (ds : List Diag) : invocations (ds.map Event.cerr) = [] := by
  induction ds with
  | nil => rfl
  | cons d ds ih => simp [invocations, List.filterMap_cons]

@[simp] theorem stderr_nil : stderr [] = [] := rfl

@[simp] theorem stderr_append (a b : List Event) : stderr (a ++ b) = stderr a ++ stderr b := by
  simp [stderr, List.filterMap_append]

@[simp] theorem stderr_perform (res : Nat) (tr : List Event) :
    stderr (Event.perform res :: tr) = stderr tr := by
  simp [stderr, List.filterMap_cons]

@[simp] theorem stderr_cerr (ds : List Diag) : stderr (ds.map Event.cerr) = ds := by
  induction ds with
  | nil => rfl
  | cons d ds ih =>
    have : stderr (Event.cerr d :: ds.map Event.cerr) = d :: stderr (ds.map Event.cerr) := by
      simp [stderr, List.filterMap_cons]
    simpa [this] using ih

theorem countP_isFailure_failureLines (attempts : Int) (k : Nat) (t : Transfer) :
    (failureLines attempts k t).countP Diag.isFailure = 1 := by
  unfold failureLines
  by_cases ha : t.outcome = CURLE_HTTP_RETURNED_ERROR <;> by_cases hb : (k : Int) + 1 < attempts <;>
    simp [ha, hb, Diag.isFailure, List.countP_cons]

theorem countP_isRetry_failureLines (attempts : Int) (k : Nat) (t : Transfer) :
    (failureLines attempts k t).countP Diag.isRetry = if (k : Int) + 1 < attempts then 1 else 0 := by
  unfold failureLines
  by_cases ha : t.outcome = CURLE_HTTP_RETURNED_ERROR <;> by_cases hb : (k : Int) + 1 < attempts <;>
    simp [ha, hb, Diag.isRetry, List.countP_cons]

/-! ## The loop when every attempt in the budget fails -/

theorem retryLoop_allFail (T : Nat → Transfer) (attempts : Int)
    (hfail : ∀ k : Nat, (k : Int) < attempts → (T k).outcome ≠ CURLE_OK)
    (fuel i : Nat) (h : Handles) (hf : (attempts - i).toNat ≤ fuel) :
    (invocations (retryLoop T attempts fuel i h).1).length = (attempts - i).toNat
      ∧ (stderr (retryLoop T attempts fuel i h).1).countP Diag.isFailure = (attempts - i).toNat
      ∧ (stderr (retryLoop T attempts fuel i h).1).countP Diag.isRetry = (attempts - i).toNat - 1
      ∧ ∀ res ∈ invocations (retryLoop T attempts fuel i h).1, res ≠ CURLE_OK := by
  induction fuel generalizing i h with
  | zero =>
    have h0 : (attempts - i).toNat = 0 := by omega
    simp [retryLoop, h0]
  | succ f ih =>
    by_cases hi : (i : Int) < attempts
    · have hko := hfail i hi
      obtain ⟨e1, e2, e3, e4⟩ := ih (i + 1) (curl_easy_perform (T i) h).2 (by push_cast; omega)
      rw [retryLoop_fail T attempts f i h hi hko]
      simp only [invocations_append, invocations_cerr, stderr_append, stderr_cerr,
        List.singleton_append, invocations_perform, stderr_perform, List.append_nil,
        List.length_cons, List.countP_append, countP_isFailure_failureLines,
        countP_isRetry_failureLines, e1, e2, e3, List.mem_cons, List.nil_append]
      refine ⟨?_, ?_, ?_, ?_⟩
      · push_cast; omega
      · push_cast; omega
      · split <;> (push_cast; omega)
      · rintro res (rfl | hres)
        · exact hko
        · exact e4 res hres
    · have h0 : (attempts - i).toNat = 0 := by omega
      rw [retryLoop_done T attempts _ i h hi]
      simp [h0]

/-! ## The loop when the last attempt of the budget is the first to succeed -/

theorem retryLoop_lastOk (T : Nat → Transfer) (attempts : Int)
    (hfail : ∀ k : Nat, (k : Int) + 1 < attempts → (T k).outcome ≠ CURLE_OK)
    (hok : ∀ k : Nat, (k : Int) + 1 = attempts → (T k).outcome = CURLE_OK)
    (fuel i : Nat) (h : Handles) (hi : (i : Int) < attempts)
    (hf : (attempts - i).toNat ≤ fuel) :
    (invocations (retryLoop T attempts fuel i h).1).length = (attempts - i).toNat
      ∧ (stderr (retryLoop T attempts fuel i h).1).countP Diag.isFailure
          = (attempts - i).toNat - 1
      ∧ (stderr (retryLoop T attempts fuel i h).1).countP Diag.isRetry
          = (attempts - i).toNat - 1
      ∧ (invocations (retryLoop T attempts fuel i h).1).getLast? = some CURLE_OK := by
  induction fuel generalizing i h with
  | zero => omega
  | succ f ih =>
    by_cases hlast : (i : Int) + 1 = attempts
    · have h1 : (attempts - i).toNat = 1 := by omega
      rw [retryLoop_ok T attempts f i h hi (hok i hlast)]
      simp [h1]
    · have hlt : (i : Int) + 1 < attempts := by omega
      have hko := hfail i hlt
      obtain ⟨e1, e2, e3, e4⟩ :=
        ih (i + 1) (curl_easy_perform (T i) h).2 (by push_cast; omega) (by push_cast; omega)
      rw [retryLoop_fail T attempts f i h hi hko]
      simp only [invocations_append, invocations_cerr, stderr_append, stderr_cerr,
        List.singleton_append, invocations_perform, stderr_perform, List.append_nil,
        List.length_cons, List.countP_append, countP_isFailure_failureLines,
        countP_isRetry_failureLines, e1, e2, e3, List.nil_append, hlt, if_true]
      refine ⟨?_, ?_, ?_, ?_⟩
      · push_cast; omega
      · push_cast; omega
      · push_cast; omega
      · cases hinv : invocations (retryLoop T attempts f (i + 1) (curl_easy_perform (T i) h).2).1 with
        | nil => rw [hinv] at e4; simp at e4
        | cons r rs => rw [hinv] at e4; simpa [List.getLast?_cons_cons] using e4

/-! ## The loop under any transport -/

theorem mem_dropLast_cons (a r : Nat) (l : List Nat) (hr : r ∈ (a :: l).dropLast) :
    r = a ∨ r ∈ l.dropLast := by
  cases l with
  | nil => simp at hr
  | cons b l => simpa using hr

theorem retryLoop_bounds (T : Nat → Transfer) (attempts : Int) (fuel i : Nat) (h : Handles) :
    (invocations (retryLoop T attempts fuel i h).1).length ≤ (attempts - i).toNat
      ∧ ((i : Int) < attempts → 0 < fuel →
          1 ≤ (invocations (retryLoop T attempts fuel i h).1).length)
      ∧ ∀ res ∈ (invocations (retryLoop T attempts fuel i h).1).dropLast, res ≠ CURLE_OK := by
  induction fuel generalizing i h with
  | zero => simp [retryLoop]
  | succ f ih =>
    by_cases hi : (i : Int) < attempts
    · by_cases hok : (T i).outcome = CURLE_OK
      · rw [retryLoop_ok T attempts f i h hi hok]
        refine ⟨?_, ?_, ?_⟩
        · simp; omega
        · simp
        · simp
      · obtain ⟨e1, _, e3⟩ := ih (i + 1) (curl_easy_perform (T i) h).2
        rw [retryLoop_fail T attempts f i h hi hok]
        simp only [invocations_append, invocations_cerr, List.singleton_append,
          invocations_perform, List.append_nil, List.length_cons, List.nil_append]
        refine ⟨?_, ?_, ?_⟩
        · push_cast at e1; omega
        · intro _ _; omega
        · intro res hres
          rcases mem_dropLast_cons _ _ _ hres with rfl | hres
          · exact hok
          · exact e3 res hres
    · rw [retryLoop_done T attempts _ i h hi]
      simp
      omega

theorem retryLoop_events (T : Nat → Transfer) (attempts : Int) (fuel i : Nat) (h : Handles) :
    opens (retryLoop T attempts fuel i h).1 = 0 ∧ closes (retryLoop T attempts fuel i h).1 = 0 := by
  induction fuel generalizing i h with
  | zero => simp [retryLoop, opens, closes]
  | succ f ih =>
    by_cases hi : (i : Int) < attempts
    · by_cases hok : (T i).outcome = CURLE_OK
      · rw [retryLoop_ok T attempts f i h hi hok]
        simp [opens, closes]
      · obtain ⟨e1, e2⟩ := ih (i + 1) (curl_easy_perform (T i) h).2
        rw [retryLoop_fail T attempts f i h hi hok]
        simp only [opens, closes] at e1 e2 ⊢
        simp only [List.countP_append, e1, e2, List.countP_map]
        simp [List.countP_eq_zero]
    · rw [retryLoop_done T attempts _ i h hi]
      simp [opens, closes]

theorem retryLoop_report (T : Nat → Transfer) (attempts : Int) (fuel i : Nat) (h : Handles) :
    invocations (retryLoop T attempts fuel i h).1
        = (List.range' i (invocations (retryLoop T attempts fuel i h).1).length).map
            (fun k => (T k).outcome)
      ∧ stderr (retryLoop T attempts fuel i h).1
        = (List.range' i (failures (retryLoop T attempts fuel i h).1)).flatMap
            (fun k => failureLines attempts k (T k)) := by
  induction fuel generalizing i h with
  | zero => simp [retryLoop, failures]
  | succ f ih =>
    by_cases hi : (i : Int) < attempts
    · by_cases hok : (T i).outcome = CURLE_OK
      · rw [retryLoop_ok T attempts f i h hi hok]
        simp [failures, hok, List.range']
      · obtain ⟨e1, e2⟩ := ih (i + 1) (curl_easy_perform (T i) h).2
        rw [retryLoop_fail T attempts f i h hi hok]
        simp only [failures] at e2 ⊢
        simp only [invocations_append, invocations_cerr, stderr_append, stderr_cerr,
          List.singleton_append, invocations_perform, stderr_perform, List.append_nil,
          List.length_cons, List.nil_append, List.range'_succ, List.map_cons]
        refine ⟨?_, ?_⟩
        · rw [← e1]
        · rw [List.countP_cons_of_pos _ _ (by simpa using hok), List.range'_succ,
            List.flatMap_cons, ← e2]
    · rw [retryLoop_done T attempts _ i h hi]
      simp [failures]

theorem retryLoop_fp (T : Nat → Transfer) (attempts : Int)
    (hfull : ∀ k : Nat, (k : Int) < attempts → (T k).writesInFull) (fuel i : Nat) (h : Handles) :
    (retryLoop T attempts fuel i h).2.fp
      = h.fp ++ (List.range' i (invocations (retryLoop T attempts fuel i h).1).length).flatMap
          (fun k => (T k).bytes) := by
  induction fuel generalizing i h with
  | zero => simp [retryLoop]
  | succ f ih =>
    by_cases hi : (i : Int) < attempts
    · by_cases hok : (T i).outcome = CURLE_OK
      · rw [retryLoop_ok T attempts f i h hi hok]
        simp [List.range', curl_easy_perform_fp _ _ (hfull i hi)]
      · rw [retryLoop_fail T attempts f i h hi hok]
        simp only [invocations_append, invocations_cerr, List.singleton_append,
          invocations_perform, List.append_nil, List.length_cons, List.nil_append,
          List.range'_succ, List.flatMap_cons]
        rw [ih (i + 1) (curl_easy_perform (T i) h).2, curl_easy_perform_fp _ _ (hfull i hi),
          List.append_assoc]
    · rw [retryLoop_done T attempts _ i h hi]
      simp

/-! ## `main` and `run` -/

theorem main_eq_run (env : Env) (opts : List Opt) (cfg : Config)
    (hcfg : processOptions opts Config.initial = some cfg) : main env opts = run env cfg := by
  simp [main, hcfg]

theorem run_opened (env : Env) (cfg : Config) (hopen : env.opened cfg) :
    run env cfg =
      { exit := 0
        trace := [Event.fopen true]
          ++ (retryLoop (env.perform cfg.url) cfg.attempts cfg.attempts.toNat 0
                { fp := [], responseCode := 0 }).1
          ++ [Event.cleanup, Event.fclose]
        file := some (retryLoop (env.perform cfg.url) cfg.attempts cfg.attempts.toNat 0
                { fp := [], responseCode := 0 }).2.fp } := by
  simp [run, hopen.1, hopen.2]

theorem run_invocations (env : Env) (cfg : Config) (hopen : env.opened cfg) :
    invocations (run env cfg).trace
      = invocations (retryLoop (env.perform cfg.url) cfg.attempts cfg.attempts.toNat 0
          { fp := [], responseCode := 0 }).1 := by
  rw [run_opened env cfg hopen]
  simp [invocations, List.filterMap_cons]

theorem run_stderr (env : Env) (cfg : Config) (hopen : env.opened cfg) :
    stderr (run env cfg).trace
      = stderr (retryLoop (env.perform cfg.url) cfg.attempts cfg.attempts.toNat 0
          { fp := [], responseCode := 0 }).1 := by
  rw [run_opened env cfg hopen]
  simp [stderr, List.filterMap_cons]

theorem run_exit (env : Env) (cfg : Config) (hopen : env.opened cfg) : (run env cfg).exit = 0 := by
  rw [run_opened env cfg hopen]

theorem toNat_sub_zero (attempts : Int) : (attempts - ((0 : Nat) : Int)).toNat = attempts.toNat := by
  simp

theorem processOptions_cmdline (n : Int) :
    processOptions (cmdline n) Config.initial = some (cmdlineConfig n) := rfl

/-! ## The claims -/

/-- C1: with `attempts = N ≥ 1`, the destination opened, and a transport whose every
call fails, `main` invokes the transport exactly `N` times, writes exactly `N`
failure-reason lines and exactly `N - 1` retry notices. -/
theorem always_failing_transport (env : Env) (opts : List Opt) (cfg : Config)
    (hcfg : processOptions opts Config.initial = some cfg) (hopen : env.opened cfg)
    (hN : 1 ≤ cfg.attempts)
    (hfail : ∀ k : Nat, (env.perform cfg.url k).outcome ≠ CURLE_OK) :
    ((invocations (main env opts).trace).length : Int) = cfg.attempts
      ∧ (((stderr (main env opts).trace).countP Diag.isFailure : Nat) : Int) = cfg.attempts
      ∧ (((stderr (main env opts).trace).countP Diag.isRetry : Nat) : Int) = cfg.attempts - 1 := by
  obtain ⟨e1, e2, e3, _⟩ :=
    retryLoop_allFail (env.perform cfg.url) cfg.attempts (fun k _ => hfail k)
      cfg.attempts.toNat 0 { fp := [], responseCode := 0 } (by simp)
  rw [main_eq_run env opts cfg hcfg, run_invocations env cfg hopen, run_stderr env cfg hopen,
    e1, e2, e3]
  simp only [toNat_sub_zero]
  omega

/-- Witness of C1: three attempts against a host that refuses every connection. -/
theorem always_failing_transport_witness :
    ((invocations (main envRefused (cmdline 3)).trace).length : Int) = 3
      ∧ (((stderr (main envRefused (cmdline 3)).trace).countP Diag.isFailure : Nat) : Int) = 3
      ∧ (((stderr (main envRefused (cmdline 3)).trace).countP Diag.isRetry : Nat) : Int) = 3 - 1 :=
  always_failing_transport envRefused (cmdline 3) (cmdlineConfig 3) rfl ⟨rfl, rfl⟩ (by decide)
    (fun _ => by simp [envRefused, Transfer.outcome, CURLE_OK])

/-- C2: with `attempts = N ≥ 1`, the destination opened, and a transport that fails on
its first `N - 1` calls and succeeds on call `N`, `main` invokes the transport
exactly `N` times, the last invocation returns `CURLE_OK`, the exit code is 0,
and exactly `N - 1` retry notices are written. -/
theorem success_on_last_attempt (env : Env) (opts : List Opt) (cfg : Config)
    (hcfg : processOptions opts Config.initial = some cfg) (hopen : env.opened cfg)
    (hN : 1 ≤ cfg.attempts)
    (hfail : ∀ k : Nat, (k : Int) + 1 < cfg.attempts →
      (env.perform cfg.url k).outcome ≠ CURLE_OK)
    (hok : (env.perform cfg.url (cfg.attempts - 1).toNat).outcome = CURLE_OK) :
    ((invocations (main env opts).trace).length : Int) = cfg.attempts
      ∧ (invocations (main env opts).trace).getLast? = some CURLE_OK
      ∧ (main env opts).exit = 0
      ∧ (((stderr (main env opts).trace).countP Diag.isRetry : Nat) : Int) = cfg.attempts - 1 := by
  have hok2 : ∀ k : Nat, (k : Int) + 1 = cfg.attempts →
      (env.perform cfg.url k).outcome = CURLE_OK := by
    intro k hk
    have : (cfg.attempts - 1).toNat = k := by omega
    rw [← this]; exact hok
  obtain ⟨e1, _, e3, e4⟩ :=
    retryLoop_lastOk (env.perform cfg.url) cfg.attempts hfail hok2
      cfg.attempts.toNat 0 { fp := [], responseCode := 0 } (by push_cast; omega) (by simp)
  rw [main_eq_run env opts cfg hcfg, run_invocations env cfg hopen, run_stderr env cfg hopen,
    run_exit env cfg hopen, e1, e3]
  simp only [toNat_sub_zero]
  refine ⟨by omega, e4, trivial, by omega⟩

/-- Witness of C2: three attempts, the third one succeeds. -/
theorem success_on_last_attempt_witness :
    ((invocations (main envThirdTime (cmdline 3)).trace).length : Int) = 3
      ∧ (invocations (main envThirdTime (cmdline 3)).trace).getLast? = some CURLE_OK
      ∧ (main envThirdTime (cmdline 3)).exit = 0
      ∧ (((stderr (main envThirdTime (cmdline 3)).trace).countP Diag.isRetry : Nat) : Int)
          = 3 - 1 :=
  success_on_last_attempt envThirdTime (cmdline 3) (cmdlineConfig 3) rfl ⟨rfl, rfl⟩ (by decide)
    (fun k hk => by
      have hk2 : k < 2 := by
        have : (k : Int) + 1 < 3 := hk
        omega
      simp [envThirdTime, hk2, Transfer.outcome, CURLE_OK])
    (by decide)

/-- C3, evaluated where it fails: one attempt against a host that refuses the
connection.  The only transport invocation returns 7, one failure line is
written, and `main` returns 0. -/
theorem exit_status_after_exhaustion :
    invocations (main envRefused (cmdline 1)).trace = [7]
      ∧ stderr (main envRefused (cmdline 1)).trace = [Diag.performFailed 7]
      ∧ (main envRefused (cmdline 1)).exit = 0 := by
  decide

/-- C4: when `fopen` returns null, for every url and every `attempts`, `main` makes no
transport invocation, writes the `Could not open file` line (and nothing else)
and returns 1. -/
theorem unopenable_destination (env : Env) (opts : List Opt) (cfg : Config)
    (hcfg : processOptions opts Config.initial = some cfg)
    (hinit : env.curlInit = true) (hfopen : env.fopen cfg.outfilename = false) :
    invocations (main env opts).trace = []
      ∧ stderr (main env opts).trace = [Diag.couldNotOpen cfg.outfilename]
      ∧ (∀ strerror : Nat → String, (Diag.couldNotOpen cfg.outfilename).render strerror
          = "Could not open file: " ++ cfg.outfilename.getD "")
      ∧ (main env opts).trace
          = [Event.fopen false, Event.cerr (Diag.couldNotOpen cfg.outfilename)]
      ∧ (main env opts).exit = 1 := by
  rw [main_eq_run env opts cfg hcfg]
  simp [run, hinit, hfopen, invocations, stderr, Diag.render]

/-- Witness of C4: an unwritable destination with three attempts configured. -/
theorem unopenable_destination_witness :
    invocations (main envUnwritable (cmdline 3)).trace = []
      ∧ stderr (main envUnwritable (cmdline 3)).trace = [Diag.couldNotOpen (some "/tmp/out.bin")]
      ∧ (∀ strerror : Nat → String, (Diag.couldNotOpen (some "/tmp/out.bin")).render strerror
          = "Could not open file: " ++ (some "/tmp/out.bin").getD "")
      ∧ (main envUnwritable (cmdline 3)).trace
          = [Event.fopen false, Event.cerr (Diag.couldNotOpen (some "/tmp/out.bin"))]
      ∧ (main envUnwritable (cmdline 3)).exit = 1 :=
  unopenable_destination envUnwritable (cmdline 3) (cmdlineConfig 3) rfl rfl rfl

/-- C5: with `attempts ≥ 1` and the destination opened, under any transport, `main`
makes at least one and at most `attempts` transport invocations, and every
invocation but the last one failed (none follows a success); when the first
call succeeds there is exactly one invocation, nothing is written to
`std::cerr`, and the exit code is 0. -/
theorem attempts_within_budget (env : Env) (opts : List Opt) (cfg : Config)
    (hcfg : processOptions opts Config.initial = some cfg) (hopen : env.opened cfg)
    (hN : 1 ≤ cfg.attempts) :
    1 ≤ (invocations (main env opts).trace).length
      ∧ ((invocations (main env opts).trace).length : Int) ≤ cfg.attempts
      ∧ (∀ res ∈ (invocations (main env opts).trace).dropLast, res ≠ CURLE_OK)
      ∧ ((env.perform cfg.url 0).outcome = CURLE_OK →
          invocations (main env opts).trace = [CURLE_OK]
            ∧ stderr (main env opts).trace = []
            ∧ (main env opts).exit = 0) := by
  obtain ⟨e1, e2, e3⟩ :=
    retryLoop_bounds (env.perform cfg.url) cfg.attempts cfg.attempts.toNat 0
      { fp := [], responseCode := 0 }
  rw [main_eq_run env opts cfg hcfg, run_invocations env cfg hopen, run_stderr env cfg hopen,
    run_exit env cfg hopen]
  refine ⟨e2 (by push_cast; omega) (by omega), ?_, e3, ?_⟩
  · simp only [toNat_sub_zero] at e1
    omega
  · intro hok
    obtain ⟨g, hg⟩ : ∃ g, cfg.attempts.toNat = g + 1 := ⟨cfg.attempts.toNat - 1, by omega⟩
    rw [hg, retryLoop_ok (env.perform cfg.url) cfg.attempts g 0 _ (by push_cast; omega) hok]
    simp

/-- Witness of C5: three attempts configured, the first transfer succeeds. -/
theorem attempts_within_budget_witness :
    1 ≤ (invocations (main envServed (cmdline 3)).trace).length
      ∧ ((invocations (main envServed (cmdline 3)).trace).length : Int) ≤ 3
      ∧ (∀ res ∈ (invocations (main envServed (cmdline 3)).trace).dropLast, res ≠ CURLE_OK)
      ∧ ((envServed.perform (some "http://x/ok") 0).outcome = CURLE_OK →
          invocations (main envServed (cmdline 3)).trace = [CURLE_OK]
            ∧ stderr (main envServed (cmdline 3)).trace = []
            ∧ (main envServed (cmdline 3)).exit = 0) :=
  attempts_within_budget envServed (cmdline 3) (cmdlineConfig 3) rfl ⟨rfl, rfl⟩ (by decide)

/-- C6 refuted as stated: on the exit path where `fopen` fails the destination is
never closed, and on the path where `curl_easy_init` fails it is not even
opened; neither run has exactly one open and exactly one close. -/
theorem open_close_early_exit_counterexample :
    ¬ (opens (main envUnwritable (cmdline 3)).trace = 1
        ∧ closes (main envUnwritable (cmdline 3)).trace = 1)
      ∧ ¬ (opens (main envNoSession (cmdline 3)).trace = 1
        ∧ closes (main envNoSession (cmdline 3)).trace = 1) := by
  decide

/-- C6 amended: for every `attempts` and every transport, when the session is
initialised and `fopen` succeeds, the trace is the successful `fopen`, then
the events of the loop (which hold every transport invocation and no open or
close), then `curl_easy_cleanup` and `fclose`: one open before any invocation,
one close after the last.  When `fopen` fails there is that one failed open, no
close and no invocation; when the session cannot be initialised the trace is
empty. -/
theorem open_close_once (env : Env) (opts : List Opt) (cfg : Config)
    (hcfg : processOptions opts Config.initial = some cfg) :
    (env.opened cfg →
        (∃ evs : List Event,
            (main env opts).trace = [Event.fopen true] ++ evs ++ [Event.cleanup, Event.fclose]
              ∧ invocations evs = invocations (main env opts).trace
              ∧ opens evs = 0 ∧ closes evs = 0)
          ∧ opens (main env opts).trace = 1 ∧ closes (main env opts).trace = 1)
      ∧ (env.curlInit = true → env.fopen cfg.outfilename = false →
          opens (main env opts).trace = 1 ∧ closes (main env opts).trace = 0
            ∧ invocations (main env opts).trace = [])
      ∧ (env.curlInit = false → (main env opts).trace = []) := by
  rw [main_eq_run env opts cfg hcfg]
  refine ⟨?_, ?_, ?_⟩
  · intro hopen
    obtain ⟨e1, e2⟩ :=
      retryLoop_events (env.perform cfg.url) cfg.attempts cfg.attempts.toNat 0
        { fp := [], responseCode := 0 }
    refine ⟨⟨_, (by rw [run_opened env cfg hopen]), (run_invocations env cfg hopen).symm, e1, e2⟩,
      ?_, ?_⟩
    · rw [run_opened env cfg hopen]
      simp only [opens] at e1 ⊢
      simp [List.countP_append, e1, List.countP_cons]
    · rw [run_opened env cfg hopen]
      simp only [closes] at e2 ⊢
      simp [List.countP_append, e2, List.countP_cons]
  · intro hinit hfopen
    simp [run, hinit, hfopen, opens, closes, invocations, List.countP_cons]
  · intro hinit
    simp [run, hinit]

/-- Witness of the amended C6, one run for each of the three paths. -/
theorem open_close_once_witness :
    ((∃ evs : List Event,
          (main envThirdTime (cmdline 3)).trace
              = [Event.fopen true] ++ evs ++ [Event.cleanup, Event.fclose]
            ∧ invocations evs = invocations (main envThirdTime (cmdline 3)).trace
            ∧ opens evs = 0 ∧ closes evs = 0)
        ∧ opens (main envThirdTime (cmdline 3)).trace = 1
        ∧ closes (main envThirdTime (cmdline 3)).trace = 1)
      ∧ (opens (main envUnwritable (cmdline 3)).trace = 1
        ∧ closes (main envUnwritable (cmdline 3)).trace = 0
        ∧ invocations (main envUnwritable (cmdline 3)).trace = [])
      ∧ (main envNoSession (cmdline 3)).trace = [] :=
  ⟨(open_close_once envThirdTime (cmdline 3) (cmdlineConfig 3) rfl).1 ⟨rfl, rfl⟩,
    (open_close_once envUnwritable (cmdline 3) (cmdlineConfig 3) rfl).2.1 rfl rfl,
    (open_close_once envNoSession (cmdline 3) (cmdlineConfig 3) rfl).2.2 rfl⟩

/-- C7: with the destination opened, the invocation results are the outcomes of the
transfers in call order, and `std::cerr` holds, for each failed attempt in
order, `failureLines`: one failure-reason line, then the HTTP status line
exactly when the result is `CURLE_HTTP_RETURNED_ERROR`, carrying the response
code of that same transfer (then the retry notice when an attempt remains).
With two attempts answered 404, the lines are reason, `HTTP response code: 404`,
retry notice, reason, `HTTP response code: 404`. -/
theorem failure_diagnostics (env : Env) (opts : List Opt) (cfg : Config)
    (hcfg : processOptions opts Config.initial = some cfg) (hopen : env.opened cfg) :
    invocations (main env opts).trace
        = (List.range (invocations (main env opts).trace).length).map
            (fun k => (env.perform cfg.url k).outcome)
      ∧ stderr (main env opts).trace
        = (List.range (failures (main env opts).trace)).flatMap
            (fun k => failureLines cfg.attempts k (env.perform cfg.url k))
      ∧ (∀ (attempts : Int) (k : Nat) (t : Transfer),
          (failureLines attempts k t).head? = some (Diag.performFailed t.outcome)
            ∧ (failureLines attempts k t).countP Diag.isFailure = 1
            ∧ (failureLines attempts k t).filter Diag.isHttpCode
                = if t.outcome = CURLE_HTTP_RETURNED_ERROR
                  then [Diag.httpResponseCode t.responseCode] else [])
      ∧ stderr (main envNotFound (cmdline 2)).trace
        = [Diag.performFailed 22, Diag.httpResponseCode 404, Diag.retrying,
            Diag.performFailed 22, Diag.httpResponseCode 404]
      ∧ (∀ strerror : Nat → String,
          ((stderr (main envNotFound (cmdline 2)).trace).filter Diag.isHttpCode).map
              (Diag.render strerror)
            = ["HTTP response code: 404", "HTTP response code: 404"]) := by
  obtain ⟨e1, e2⟩ :=
    retryLoop_report (env.perform cfg.url) cfg.attempts cfg.attempts.toNat 0
      { fp := [], responseCode := 0 }
  refine ⟨?_, ?_, ?_, by decide, fun _ => rfl⟩
  · rw [main_eq_run env opts cfg hcfg, run_invocations env cfg hopen, List.range_eq_range']
    exact e1
  · rw [main_eq_run env opts cfg hcfg, run_stderr env cfg hopen, List.range_eq_range']
    simp only [failures] at e2 ⊢
    rw [run_invocations env cfg hopen]
    exact e2
  · intro attempts k t
    unfold failureLines
    by_cases ha : t.outcome = CURLE_HTTP_RETURNED_ERROR <;>
      by_cases hb : (k : Int) + 1 < attempts <;>
      simp [ha, hb, Diag.isFailure, Diag.isHttpCode, List.countP_cons, List.filter_cons]

/-- Witness of C7: two attempts, both answered 404. -/
theorem failure_diagnostics_witness :
    stderr (main envNotFound (cmdline 2)).trace
      = (List.range (failures (main envNotFound (cmdline 2)).trace)).flatMap
          (fun k => failureLines 2 k (envNotFound.perform (some "http://x/ok") k)) :=
  (failure_diagnostics envNotFound (cmdline 2) (cmdlineConfig 2) rfl ⟨rfl, rfl⟩).2.1

/-- C8 refuted as stated: with `--attempts 0` (and with `--attempts -3`) and the
destination opened, `main` returns 0, not a failure status. -/
theorem nonpositive_attempts_counterexample :
    ¬ ((main envServed (cmdline 0)).exit ≠ 0) ∧ ¬ ((main envServed (cmdline (-3))).exit ≠ 0) := by
  decide

/-- C8 amended: for every `attempts < 1` with the destination opened, the loop body
never executes: the trace is just the open, `curl_easy_cleanup` and `fclose`,
so there is no transport invocation and nothing on `std::cerr`, and the
destination is left empty. -/
theorem nonpositive_attempts (env : Env) (opts : List Opt) (cfg : Config)
    (hcfg : processOptions opts Config.initial = some cfg) (hopen : env.opened cfg)
    (hN : cfg.attempts < 1) :
    (main env opts).trace = [Event.fopen true, Event.cleanup, Event.fclose]
      ∧ invocations (main env opts).trace = []
      ∧ stderr (main env opts).trace = []
      ∧ (main env opts).file = some [] := by
  have h0 : ¬ (((0 : Nat) : Int) < cfg.attempts) := by push_cast; omega
  rw [main_eq_run env opts cfg hcfg, run_opened env cfg hopen,
    retryLoop_done (env.perform cfg.url) cfg.attempts _ 0 _ h0]
  simp [invocations, stderr]

/-- Witness of the amended C8: `--attempts -3`. -/
theorem nonpositive_attempts_witness :
    (main envServed (cmdline (-3))).trace = [Event.fopen true, Event.cleanup, Event.fclose]
      ∧ invocations (main envServed (cmdline (-3))).trace = []
      ∧ stderr (main envServed (cmdline (-3))).trace = []
      ∧ (main envServed (cmdline (-3))).file = some [] :=
  nonpositive_attempts envServed (cmdline (-3)) (cmdlineConfig (-3)) rfl ⟨rfl, rfl⟩ (by decide)

/-- C9, evaluated where it fails: three attempts, the first transfer delivers
`[7, 8]` and breaks off, the second delivers the whole body `[7, 8, 9]` and
succeeds.  There are two invocations, one retry notice, exit code 0, and the
destination holds `[7, 8, 7, 8, 9]`: the bytes of attempt 1 followed by those
of attempt 2. -/
theorem retry_after_broken_transfer :
    invocations (main envBrokenThenServed (cmdline 3)).trace = [56, CURLE_OK]
      ∧ (envBrokenThenServed.perform (some "http://x/ok") 0).bytes = [7, 8]
      ∧ (envBrokenThenServed.perform (some "http://x/ok") 1).bytes = [7, 8, 9]
      ∧ (main envBrokenThenServed (cmdline 3)).file = some [7, 8, 7, 8, 9]
      ∧ (main envBrokenThenServed (cmdline 3)).exit = 0
      ∧ (stderr (main envBrokenThenServed (cmdline 3)).trace).countP Diag.isRetry = 1 := by
  decide

/-- C10: with the destination opened and every write taken in full, for every
`attempts` and every transport, the final content of the destination is the
concatenation, in attempt order, of the bytes handed to `write_data` by every
attempt made, failed ones included.  And `write_data` returns exactly what
`fwrite` returns and appends the buffer unchanged (the whole buffer when the
write is in full, and then the count is `nmemb`). -/
theorem file_is_concatenation (env : Env) (opts : List Opt) (cfg : Config)
    (hcfg : processOptions opts Config.initial = some cfg) (hopen : env.opened cfg)
    (hfull : ∀ k : Nat, (k : Int) < cfg.attempts → (env.perform cfg.url k).writesInFull) :
    (main env opts).file
        = some ((List.range (invocations (main env opts).trace).length).flatMap
            (fun k => (env.perform cfg.url k).bytes))
      ∧ (∀ (ptr : List Nat) (size nmemb room : Nat) (stream : List Nat),
          write_data ptr size nmemb room stream = fwrite ptr size nmemb room stream
            ∧ (write_data ptr size nmemb room stream).2
                = stream ++ ptr.take (min (size * nmemb) room)
            ∧ (0 < size → ptr.length = size * nmemb → size * nmemb ≤ room →
                write_data ptr size nmemb room stream = (nmemb, stream ++ ptr))) := by
  refine ⟨?_, ?_⟩
  · have e :=
      retryLoop_fp (env.perform cfg.url) cfg.attempts hfull cfg.attempts.toNat 0
        { fp := [], responseCode := 0 }
    rw [main_eq_run env opts cfg hcfg, run_invocations env cfg hopen, List.range_eq_range']
    rw [run_opened env cfg hopen]
    simp only [List.nil_append] at e
    simp only [e]
  · intro ptr size nmemb room stream
    refine ⟨rfl, rfl, ?_⟩
    intro hsize hlen hroom
    have hmin : min (size * nmemb) room = size * nmemb := Nat.min_eq_left hroom
    simp only [write_data, fwrite, hmin, Nat.mul_div_cancel_left nmemb hsize]
    rw [← hlen, List.take_length]

/-- Witness of C10: the broken first transfer followed by a served one. -/
theorem file_is_concatenation_witness :
    (main envBrokenThenServed (cmdline 3)).file
      = some ((List.range (invocations (main envBrokenThenServed (cmdline 3)).trace).length).flatMap
          (fun k => (envBrokenThenServed.perform (some "http://x/ok") k).bytes)) :=
  (file_is_concatenation envBrokenThenServed (cmdline 3) (cmdlineConfig 3) rfl ⟨rfl, rfl⟩
    (fun k _ => by
      intro c hc
      by_cases hk : k = 0
      · simp [envBrokenThenServed, hk] at hc
        subst hc
        decide
      · simp [envBrokenThenServed, hk] at hc
        subst hc
        decide)).1

end Downloader
